import Mathlib

/-!
Shallow embedding of the "send-me-home" backend core: the data model
(`backend/internal/models`), the Firestore-backed session store
(`backend/internal/services/firestore/client.go`), the Gemini narrative
generator with its mock fallbacks
(`backend/internal/services/gemini/client.go`, second / current version of
the file), and the Connect handlers
(`backend/internal/api/handler.go`).

External collaborators (the Gemini narrative generator, the ElevenLabs
voice synthesizer, the wall clock, the UUID source, and the possibility of
a failing Firestore write) are modelled as explicit behaviour parameters;
the store itself is modelled as a keyed association list mutated by the
same read-modify-write steps the Go transactions perform.
-/

namespace SendMeHome

/-! ## Data model (backend/internal/models/models.go) -/

/-- NPCProfile contains NPC personality and appearance. -/
structure NPCProfile where
  name : String
  role : String
  department : String
  personality : String
  voiceID : String
  demeanor : String
  portraitURL : String
deriving Repr, DecidableEq

/-- Document represents a game document: a type tag plus a field map
(Go `map[string]string`, modelled as an association list). -/
structure Document where
  type : String
  fields : List (String × String)
deriving Repr, DecidableEq

/-- CaseTruth contains the hidden ground truth for a case. -/
structure CaseTruth where
  employeeID : String
  actualTermEnd : String
  actualClearance : String
  hasIncidents : Bool
  hasDebriefIssues : Bool
  shouldApprove : Bool
  reason : String
deriving Repr, DecidableEq

/-- Case represents a pre-generated NPC case; audio bytes are `List Nat`. -/
structure Case where
  caseID : String
  npc : NPCProfile
  documents : List Document
  openingLine : String
  openingAudio : List Nat
  truth : CaseTruth
  contradictions : List String
  correctDecision : String
deriving Repr, DecidableEq

/-- Session represents a game session; all Go `int` fields are `Int`. -/
structure Session where
  sessionID : String
  gameDate : String
  rules : List String
  cases : List Case
  currentCaseIndex : Int
  score : Int
  correctDecisions : Int
  incorrectDecisions : Int
  secondaryChecksQuota : Int
  remainingSecondaryChecks : Int
  completedCases : List String
deriving Repr, DecidableEq

/-! ## Dates (Go `time` usage in the handler and the mock generator)

`StartSession` computes the game date as `time.Now().AddDate(100, 0, 0)`
formatted `"2006-01-02"`, and `generateMockCase` parses that string back
and shifts it by ±6 months with `AddDate(0, ±6, 0)`.  Civil-date
arithmetic matching Go's normalizing `time.Date` is embedded below via
the standard days-from-civil / civil-from-days conversion. -/

/-- A civil date (proleptic Gregorian calendar). -/
structure Date where
  year : Int
  month : Int
  day : Int
deriving Repr, DecidableEq

/-- Leap-year test of the Gregorian calendar. -/
def isLeap (y : Int) : Bool :=
  y % 4 == 0 && (y % 100 != 0 || y % 400 == 0)

/-- Number of days in a month. -/
def daysInMonth (y m : Int) : Int :=
  if m == 2 then (if isLeap y then 29 else 28)
  else if m == 4 || m == 6 || m == 9 || m == 11 then 30
  else 31

/-- Days since 1970-01-01 of the civil date `(y, m, d)`, `m ∈ [1,12]`;
linear in `d`, so an out-of-range day offsets into adjacent months exactly
as Go's normalizing `time.Date` does. -/
def daysFromCivil (y m d : Int) : Int :=
  let y' := if m ≤ 2 then y - 1 else y
  let era := y'.fdiv 400
  let yoe := y' - era * 400
  let mp := (m + 9).emod 12
  let doy := (153 * mp + 2).fdiv 5 + d - 1
  let doe := yoe * 365 + yoe.fdiv 4 - yoe.fdiv 100 + doy
  era * 146097 + doe - 719468

/-- The civil date of a count of days since 1970-01-01. -/
def civilFromDays (z : Int) : Date :=
  let z' := z + 719468
  let era := z'.fdiv 146097
  let doe := z' - era * 146097
  let yoe := (doe - doe.fdiv 1460 + doe.fdiv 36524 - doe.fdiv 146096).fdiv 365
  let y := yoe + era * 400
  let doy := doe - (365 * yoe + yoe.fdiv 4 - yoe.fdiv 100)
  let mp := (5 * doy + 2).fdiv 153
  let d := doy - (153 * mp + 2).fdiv 5 + 1
  let m := if mp < 10 then mp + 3 else mp - 9
  { year := if m ≤ 2 then y + 1 else y, month := m, day := d }

/-- Go `Time.AddDate(years, months, days)`: add the components, then
normalize the resulting (possibly out-of-range) civil date. -/
def goAddDate (dt : Date) (years months days : Int) : Date :=
  let m0 := dt.month - 1 + months
  let y := dt.year + years + m0.fdiv 12
  let m := m0.emod 12 + 1
  civilFromDays (daysFromCivil y m dt.day + days)

/-- Zero-pad a nonnegative integer to width 2 (Go format verb `01`). -/
def pad2 (n : Int) : String :=
  if 0 ≤ n && n < 10 then "0" ++ toString n else toString n

/-- Zero-pad a nonnegative integer to width 4 (Go verbs `2006`, `%04d`). -/
def pad4 (n : Int) : String :=
  if 0 ≤ n && n < 10 then "000" ++ toString n
  else if 0 ≤ n && n < 100 then "00" ++ toString n
  else if 0 ≤ n && n < 1000 then "0" ++ toString n
  else toString n

/-- Go `Format("2006-01-02")`. -/
def Date.format (dt : Date) : String :=
  pad4 dt.year ++ "-" ++ pad2 dt.month ++ "-" ++ pad2 dt.day

/-- Go `time.Parse("2006-01-02", s)`: fixed-width numeric fields and a
validity check of the parsed civil date. -/
def parseDate (s : String) : Option Date :=
  match s.splitOn "-" with
  | [ys, ms, ds] =>
    if ys.length == 4 && ms.length == 2 && ds.length == 2 &&
        ys.all Char.isDigit && ms.all Char.isDigit && ds.all Char.isDigit then
      match ys.toNat?, ms.toNat?, ds.toNat? with
      | some y, some m, some d =>
        if 1 ≤ m && m ≤ 12 && 1 ≤ d && (d : Int) ≤ daysInMonth y m then
          some { year := y, month := m, day := d }
        else none
      | _, _, _ => none
    else none
  | _ => none

/-! ## Session store (backend/internal/services/firestore/client.go)

The store is keyed by session id.  Each Go mutator is a transactional
read-modify-write on one document; sequentially that is: look the session
up, transform it, write it back.  `none` stands for the Go `error`
returns of the store layer (absent session, or a failed transaction
precondition); the handlers map those to Connect error codes. -/

/-- The session store: an association list keyed by session id. -/
abbrev Store := List (String × Session)

/-- Look a session up by id (Firestore `Doc(id).Get`). -/
def findSession : Store → String → Option Session
  | [], _ => none
  | (k, v) :: rest, sid => if k = sid then some v else findSession rest sid

/-- Write a session under an id (Firestore `Doc(id).Set`): replace the
entry when present, append it otherwise. -/
def setSession : Store → String → Session → Store
  | [], sid, s => [(sid, s)]
  | (k, v) :: rest, sid, s =>
    if k = sid then (sid, s) :: rest else (k, v) :: setSession rest sid s

/-- `SaveSession`: an unconditional `Set`. -/
def saveSession (st : Store) (s : Session) : Store :=
  setSession st s.sessionID s

/-- `GetCase`: fetch the session, then scan its case list for the id. -/
def getCase (st : Store) (sid cid : String) : Option Case :=
  match findSession st sid with
  | none => none
  | some s => s.cases.find? (fun c => c.caseID == cid)

/-- `IncrementCaseIndex`: transactional, always increments (the code
comments that the index equals `len(cases)` once all cases are done). -/
def incrementCaseIndex (st : Store) (sid : String) : Option Store :=
  match findSession st sid with
  | none => none
  | some s =>
    some (setSession st sid { s with currentCaseIndex := s.currentCaseIndex + 1 })

/-- `UpdateScore`: transactional; add the delta and bump exactly the
matching decision counter. -/
def updateScore (st : Store) (sid : String) (scoreDelta : Int) (correct : Bool) :
    Option Store :=
  match findSession st sid with
  | none => none
  | some s =>
    some (setSession st sid
      { s with
        score := s.score + scoreDelta
        correctDecisions :=
          if correct then s.correctDecisions + 1 else s.correctDecisions
        incorrectDecisions :=
          if correct then s.incorrectDecisions else s.incorrectDecisions + 1 })

/-- `UseSecondaryCheck`: transactional; fails unless checks remain, else
decrements the remaining count. -/
def useSecondaryCheck (st : Store) (sid : String) : Option Store :=
  match findSession st sid with
  | none => none
  | some s =>
    if s.remainingSecondaryChecks ≤ 0 then none
    else some (setSession st sid
      { s with remainingSecondaryChecks := s.remainingSecondaryChecks - 1 })

/-! ## Narrative generator (backend/internal/services/gemini/client.go)

`initClient` never returns an error (a failed `genai.NewClient` silently
selects mock mode), so each generator method is driven by one of five
observable behaviours of the external service: mock mode (no client),
a transport error from `GenerateContent`, an empty response text, a
response that fails to unmarshal, or a successfully parsed payload. -/

/-- One observable behaviour of a Gemini call, per invocation. -/
inductive GenBehaviour (α : Type) where
  | unavailable
  | transportError
  | emptyText
  | malformed
  | success (payload : α)
deriving Repr, DecidableEq

/-- The `shiftRules` pool of `mockRules`. -/
def shiftRulesPool : List String :=
  ["Only COMPLETE shifts can board",
   "INCOMPLETE shifts stay on station",
   "OVERTIME workers need manager approval",
   "All shifts must be COMPLETE to depart"]

/-- The `cargoRules` pool of `mockRules`. -/
def cargoRulesPool : List String :=
  ["No company equipment leaves the station",
   "Personal items only - no ore samples",
   "No company tools allowed on shuttle",
   "Contraband items = instant denial",
   "Only personal belongings permitted"]

/-- The `badgeRules` pool of `mockRules`. -/
def badgeRulesPool : List String :=
  ["Expired badges get denied",
   "Badge must be valid on departure date",
   "No exceptions for expired credentials",
   "Current badges only - check dates"]

/-- The random draws `mockRules` makes: `rand.Intn` indices into the three
pools and the `rand.Float32() < 0.5` coin for a second shift rule. -/
structure RulesRand where
  shiftIdx1 : Fin 4
  pickSecond : Bool
  shiftIdx2 : Fin 4
  cargoIdx : Fin 5
  badgeIdx : Fin 4
deriving Repr, DecidableEq

/-- `mockRules`: randomly select one or two shift rules (dropping a
duplicate second pick), one cargo rule, and one badge rule. -/
def mockRules (r : RulesRand) : List String :=
  let rules := [shiftRulesPool.getD r.shiftIdx1.val ""]
  let rules :=
    if r.pickSecond then
      let secondShift := shiftRulesPool.getD r.shiftIdx2.val ""
      if secondShift ≠ rules.getD 0 "" then rules ++ [secondShift] else rules
    else rules
  let rules := rules ++ [cargoRulesPool.getD r.cargoIdx.val ""]
  rules ++ [badgeRulesPool.getD r.badgeIdx.val ""]

/-- `GenerateRules`: mock mode, empty text and malformed JSON all fall
back to `mockRules`; a transport error from `GenerateContent` is returned
to the caller as an error; a parsed response is returned as-is. -/
def generateRules (b : GenBehaviour (List String)) (r : RulesRand) :
    Except Unit (List String) :=
  match b with
  | .unavailable => .ok (mockRules r)
  | .transportError => .error ()
  | .emptyText => .ok (mockRules r)
  | .malformed => .ok (mockRules r)
  | .success rules => .ok rules

/-- The NPC part of one parsed case of a Gemini case-batch response. -/
structure DraftNPC where
  name : String
  role : String
  department : String
  personality : String
  demeanor : String
deriving Repr, DecidableEq

/-- The truth part of one parsed case of a Gemini case-batch response. -/
structure DraftTruth where
  employeeID : String
  shouldApprove : Bool
  reason : String
deriving Repr, DecidableEq

/-- One parsed case of a Gemini case-batch response (the anonymous struct
`GenerateCases` unmarshals into). -/
structure CaseDraft where
  npc : DraftNPC
  employeeBadge : List (String × String)
  clearanceForm : List (String × String)
  openingLine : String
  truth : DraftTruth
  contradictions : List String
  correctDecision : String
deriving Repr, DecidableEq

/-- The content-addressed avatar URL `GenerateCases` substitutes for the
`USE_CASE_ID_AS_SEED` placeholder. -/
def avatarURL (caseID : String) : String :=
  "https://api.dicebear.com/7.x/bottts/svg?seed=" ++ caseID ++
    "&backgroundColor=1a3a52&scale=90"

/-- Rewrite the badge `picture` field when it holds the placeholder. -/
def fixBadgePicture (caseID : String) (fields : List (String × String)) :
    List (String × String) :=
  match fields.lookup "picture" with
  | some p =>
    if p = "USE_CASE_ID_AS_SEED" then
      fields.map (fun kv => if kv.1 = "picture" then ("picture", avatarURL caseID) else kv)
    else fields
  | none => fields

/-- Conversion of the `i`-th parsed draft into a `models.Case`
(`GenerateCases`, success path): case id `case-(i+1)`, the fixed ElevenLabs
voice id, and Go zero values for the truth fields the response lacks. -/
def draftToCase (i : Nat) (d : CaseDraft) : Case :=
  let caseID := "case-" ++ toString (i + 1)
  { caseID := caseID
    npc :=
      { name := d.npc.name, role := d.npc.role, department := d.npc.department,
        personality := d.npc.personality, voiceID := "21m00Tcm4TlvDq8ikWAM",
        demeanor := d.npc.demeanor, portraitURL := "" }
    documents :=
      [{ type := "employee_badge", fields := fixBadgePicture caseID d.employeeBadge },
       { type := "clearance_form", fields := d.clearanceForm }]
    openingLine := d.openingLine
    openingAudio := []
    truth :=
      { employeeID := d.truth.employeeID, actualTermEnd := "", actualClearance := "",
        hasIncidents := false, hasDebriefIssues := false,
        shouldApprove := d.truth.shouldApprove, reason := d.truth.reason }
    contradictions := d.contradictions
    correctDecision := d.correctDecision }

/-- The per-index variation table of `generateMockCase` (`index % 6`). -/
def mockProfile (index : Nat) :
    String × String × String × String × Bool × String :=
  match index % 6 with
  | 0 => ("Drill Operator", "COMPLETE", "Personal clothing", "Snacks", true,
          "Shift complete, badge valid, cargo approved")
  | 1 => ("Ore Processor", "COMPLETE", "Personal tablet", "Books", true,
          "Shift complete, badge valid, cargo approved")
  | 2 => ("Systems Tech", "COMPLETE", "Delta-7 drill bit", "Personal effects", false,
          "Company equipment not allowed off-station")
  | 3 => ("Geologist", "COMPLETE", "Ore samples", "Personal clothing", false,
          "Ore samples are contraband")
  | 4 => ("Safety Officer", "INCOMPLETE", "Music player", "Toiletries", false,
          "Shift incomplete - cannot board")
  | _ => ("Maintenance Tech", "OVERTIME", "Family photos", "Personal clothing", true,
          "Overtime shift complete, cargo approved")

/-- `generateMockCase`: the procedural fallback case for a 1-based index.
`now` stands for `time.Now()`, used only when the game date fails to
parse. -/
def generateMockCase (index : Nat) (gameDate : String) (now : Date) : Case :=
  let p := mockProfile index
  let jobTitle := p.1
  let shiftStatus := p.2.1
  let cargo1 := p.2.2.1
  let cargo2 := p.2.2.2.1
  let shouldApprove := p.2.2.2.2.1
  let reason := p.2.2.2.2.2
  let workerName := "Worker " ++ toString index
  let parsedDate := (parseDate gameDate).getD (goAddDate now 100 0 0)
  let badgeIssueDate := (goAddDate parsedDate 0 (-6) 0).format
  let badgeExpireDate := (goAddDate parsedDate 0 6 0).format
  let caseID := "case-" ++ toString index
  { caseID := caseID
    npc :=
      { name := workerName, role := jobTitle, department := "Mining Operations",
        personality := "tired", voiceID := "21m00Tcm4TlvDq8ikWAM",
        demeanor := "cooperative", portraitURL := "" }
    documents :=
      [{ type := "employee_badge",
         fields :=
           [("name", workerName), ("picture", avatarURL caseID),
            ("job_title", jobTitle), ("issue_date", badgeIssueDate),
            ("expire_date", badgeExpireDate),
            ("company_name", "Delta-7 Mining Corp")] },
       { type := "clearance_form",
         fields :=
           [("name", workerName), ("shift_status", shiftStatus),
            ("cargo1", cargo1), ("cargo2", cargo2)] }]
    openingLine := "Hey, I need to catch the shuttle home. My shift's done."
    openingAudio := []
    truth :=
      { employeeID := "EMP-" ++ pad4 index, actualTermEnd := parsedDate.format,
        actualClearance := "A", hasIncidents := false, hasDebriefIssues := false,
        shouldApprove := shouldApprove, reason := reason }
    contradictions := []
    correctDecision := if shouldApprove then "approve" else "deny" }

/-- `mockCases`: one procedural case per index `1..count`. -/
def mockCases (count : Nat) (gameDate : String) (now : Date) : List Case :=
  (List.range count).map (fun i => generateMockCase (i + 1) gameDate now)

/-- `GenerateCases`: mock mode, transport error, empty text and malformed
JSON all fall back to `mockCases count`; a successfully parsed response is
converted draft-by-draft — its length is whatever the generator returned.
The Go function's only error return is from `initClient`, which never
fails, so the call is total. -/
def generateCases (b : GenBehaviour (List CaseDraft)) (count : Nat)
    (gameDate : String) (now : Date) : List Case :=
  match b with
  | .success drafts => drafts.mapIdx draftToCase
  | _ => mockCases count gameDate now

/-- The deterministic verdict template (`GenerateVerdict` fallback). -/
def verdictFallback (caseData : Case) (playerDecision : String) : String :=
  if playerDecision == caseData.correctDecision then
    "Correct! " ++ caseData.truth.reason
  else
    "Incorrect. You should have " ++ caseData.correctDecision ++ ". " ++
      caseData.truth.reason

/-- `GenerateVerdict`: every failure mode substitutes the deterministic
template built from the case's stored reason; this call never errors. -/
def generateVerdict (b : GenBehaviour String) (caseData : Case)
    (playerDecision : String) : String :=
  match b with
  | .success text => text.trim
  | _ => verdictFallback caseData playerDecision

/-! ## API handlers (backend/internal/api/handler.go) -/

/-- Connect error codes used by the handlers. -/
inductive ErrCode where
  | notFound
  | resourceExhausted
  | invalidArgument
  | internal
  | failedPrecondition
deriving Repr, DecidableEq

/-- The `game.v1.Decision` proto enum.  The values `APPROVE`, `DENY` and
`SECONDARY` appear in the handler's switch; `unspecified` is the enum's
mandatory proto3 zero value (the generated proto file is not part of the
sources here, and the handler's switch has no default branch, so the zero
value reaches the fall-through path). -/
inductive Decision where
  | unspecified
  | approve
  | deny
  | secondary
deriving Repr, DecidableEq

/-- Outcome taxonomy of `ResolveCase`. -/
inductive CaseOutcome where
  | unspecified
  | correctApprove
  | correctDeny
  | wrongApprove
  | wrongDeny
deriving Repr, DecidableEq

/-- One event of the `StartSession` response stream. -/
inductive Event where
  | progress (current total : Int) (message : String)
  | ready (sessionId gameDate : String) (rules : List String)
      (totalCases secondaryChecksQuota : Int)
deriving Repr, DecidableEq

/-- Whether a stream event is a progress notification. -/
def Event.isProgress : Event → Bool
  | .progress _ _ _ => true
  | .ready _ _ _ _ _ => false

/-- The `current` field of a progress event. -/
def Event.current? : Event → Option Int
  | .progress c _ _ => some c
  | .ready _ _ _ _ _ => none

/-- The `current` values of the progress events of a stream, in order. -/
def progressCurrents (events : List Event) : List Int :=
  events.filterMap Event.current?

/-- One outcome of an ElevenLabs `TextToSpeech` call: an error (logged and
skipped), a nil byte slice with nil error (unconfigured client), or audio
bytes. -/
inductive AudioResult where
  | failed
  | noData
  | bytes (data : List Nat)
deriving Repr, DecidableEq

/-- The audio-enrichment loop of `StartSession`: the i-th case keeps its
empty audio unless the i-th synthesis call returned bytes. -/
def applyAudio (cases : List Case) (audio : List AudioResult) : List Case :=
  cases.mapIdx (fun i c =>
    match audio.getD i .noData with
    | .bytes data => { c with openingAudio := data }
    | _ => c)

/-- All the external inputs one `StartSession` call consumes: the request
count, the wall clock, the fresh UUID, the two generator behaviours with
the mock-rules random draws, the per-case synthesis outcomes, and whether
the final Firestore write succeeds. -/
structure StartInputs where
  numCasesReq : Int
  now : Date
  sessionID : String
  rulesB : GenBehaviour (List String)
  rulesRand : RulesRand
  casesB : GenBehaviour (List CaseDraft)
  audio : List AudioResult
  saveOk : Bool

/-- `StartSession`: default the count to 15 when nonpositive, stream the
rules progress event, generate rules (a rules error aborts with Internal),
stream one progress event per requested case, generate the case batch,
stream one progress event per generated case while enriching audio, build
the fresh session, save it (a failed write aborts with Internal), and
finish with the single ready event.  Returns the streamed events together
with the store result. -/
def startSession (inp : StartInputs) (st : Store) :
    List Event × Except ErrCode Store :=
  let numCases : Int := if inp.numCasesReq ≤ 0 then 15 else inp.numCasesReq
  let gameDate := (goAddDate inp.now 100 0 0).format
  let rulesEvent := Event.progress 0 numCases "Generating daily rules..."
  match generateRules inp.rulesB inp.rulesRand with
  | .error _ => ([rulesEvent], .error .internal)
  | .ok rules =>
    let caseEvents := (List.range numCases.toNat).map (fun i =>
      Event.progress i numCases
        ("Generating case " ++ toString (i + 1) ++ "/" ++ toString numCases ++ "..."))
    let cases := generateCases inp.casesB numCases.toNat gameDate inp.now
    let audioEvents := (List.range cases.length).map (fun i =>
      Event.progress i numCases
        ("Generating voice audio " ++ toString (i + 1) ++ "/" ++ toString numCases ++ "..."))
    let cases := applyAudio cases inp.audio
    let session : Session :=
      { sessionID := inp.sessionID, gameDate := gameDate, rules := rules,
        cases := cases, currentCaseIndex := 0, score := 0,
        correctDecisions := 0, incorrectDecisions := 0,
        secondaryChecksQuota := 3, remainingSecondaryChecks := 3,
        completedCases := [] }
    let events := rulesEvent :: (caseEvents ++ audioEvents)
    if inp.saveOk then
      (events ++ [Event.ready inp.sessionID gameDate rules numCases 3],
       .ok (saveSession st session))
    else
      (events, .error .internal)

/-- The `GetNextCaseResponse` fields derived from session state. -/
structure GetNextCaseResponse where
  caseId : String
  npc : NPCProfile
  documents : List Document
  openingLine : String
  openingAudio : List Nat
  caseNumber : Int
  remainingSecondaryChecks : Int
deriving Repr, DecidableEq

/-- `GetNextCase`: read-only; NotFound for a missing session,
FailedPrecondition once the cursor has reached the end of the case list,
else the case at the cursor. -/
def getNextCase (st : Store) (sid : String) :
    Store × Except ErrCode GetNextCaseResponse :=
  match findSession st sid with
  | none => (st, .error .notFound)
  | some session =>
    if session.currentCaseIndex ≥ (session.cases.length : Int) then
      (st, .error .failedPrecondition)
    else
      match session.cases.get? session.currentCaseIndex.toNat with
      | none => (st, .error .failedPrecondition)
      | some currentCase =>
        (st, .ok
          { caseId := currentCase.caseID, npc := currentCase.npc,
            documents := currentCase.documents,
            openingLine := currentCase.openingLine,
            openingAudio := currentCase.openingAudio,
            caseNumber := session.currentCaseIndex + 1,
            remainingSecondaryChecks := session.remainingSecondaryChecks })

/-- The `SecondaryCheckResponse` message. -/
structure SecondaryCheckResponse where
  valid : Bool
  message : String
  remainingChecks : Int
deriving Repr, DecidableEq

/-- `SecondaryCheck`: NotFound for a missing session; ResourceExhausted
(before anything else is read or written) once no checks remain; NotFound
for a missing case; then consume one check and answer deterministically
from the case's stored ground truth. -/
def secondaryCheck (st : Store) (sid cid employeeId : String) :
    Store × Except ErrCode SecondaryCheckResponse :=
  match findSession st sid with
  | none => (st, .error .notFound)
  | some session =>
    if session.remainingSecondaryChecks ≤ 0 then
      (st, .error .resourceExhausted)
    else
      match getCase st sid cid with
      | none => (st, .error .notFound)
      | some caseData =>
        match useSecondaryCheck st sid with
        | none => (st, .error .internal)
        | some st1 =>
          (st1, .ok
            { valid := employeeId == caseData.truth.employeeID,
              message := "Contract verified: Term ends " ++
                caseData.truth.actualTermEnd,
              remainingChecks := session.remainingSecondaryChecks - 1 })

/-- The `ResolveCaseResponse` message. -/
structure ResolveCaseResponse where
  correct : Bool
  verdict : String
  contradictionsFound : List String
  scoreDelta : Int
  totalScore : Int
  outcome : CaseOutcome
deriving Repr, DecidableEq

/-- The decision-to-string mapping of `ResolveCase`'s switch; the switch
has no default, so every value other than the three named ones leaves the
player decision as the empty string. -/
def decisionString : Decision → String
  | .approve => "approve"
  | .deny => "deny"
  | _ => ""

/-- The outcome if-chain at the end of `ResolveCase`. -/
def resolveOutcome (correct : Bool) (playerDecision : String) : CaseOutcome :=
  if correct && playerDecision == "approve" then CaseOutcome.correctApprove
  else if correct && playerDecision == "deny" then CaseOutcome.correctDeny
  else if !correct && playerDecision == "approve" then CaseOutcome.wrongApprove
  else if !correct && playerDecision == "deny" then CaseOutcome.wrongDeny
  else CaseOutcome.unspecified

/-- `ResolveCase`: NotFound for a missing session or case; InvalidArgument
for `SECONDARY` only; otherwise score the decision against the case's
stored correct decision (+10 / −15), bump the matching counter, advance
the cursor unconditionally, generate the verdict (never fails), and report
the refreshed total score. -/
def resolveCase (st : Store) (sid cid : String) (dec : Decision)
    (verdictB : GenBehaviour String) :
    Store × Except ErrCode ResolveCaseResponse :=
  match findSession st sid with
  | none => (st, .error .notFound)
  | some _ =>
    match getCase st sid cid with
    | none => (st, .error .notFound)
    | some caseData =>
      match dec with
      | .secondary => (st, .error .invalidArgument)
      | _ =>
        let playerDecision := decisionString dec
        let correct := playerDecision == caseData.correctDecision
        let scoreDelta : Int := if correct then 10 else -15
        match updateScore st sid scoreDelta correct with
        | none => (st, .error .internal)
        | some st1 =>
          match incrementCaseIndex st1 sid with
          | none => (st1, .error .internal)
          | some st2 =>
            let verdict := generateVerdict verdictB caseData playerDecision
            let outcome := resolveOutcome correct playerDecision
            -- The refreshed read cannot miss here: the two mutators above
            -- succeeded, so the session is present in st2.
            let totalScore :=
              match findSession st2 sid with
              | some s => s.score
              | none => 0
            (st2, .ok
              { correct := correct, verdict := verdict,
                contradictionsFound := caseData.contradictions,
                scoreDelta := scoreDelta, totalScore := totalScore,
                outcome := outcome })

/-- The `GetSessionStatusResponse` message. -/
structure GetSessionStatusResponse where
  casesCompleted : Int
  totalCases : Int
  totalScore : Int
  correctDecisions : Int
  incorrectDecisions : Int
  remainingSecondaryChecks : Int
  sessionComplete : Bool
deriving Repr, DecidableEq

/-- `GetSessionStatus`: read-only projection of the session. -/
def getSessionStatus (st : Store) (sid : String) :
    Store × Except ErrCode GetSessionStatusResponse :=
  match findSession st sid with
  | none => (st, .error .notFound)
  | some session =>
    (st, .ok
      { casesCompleted := session.currentCaseIndex,
        totalCases := (session.cases.length : Int),
        totalScore := session.score,
        correctDecisions := session.correctDecisions,
        incorrectDecisions := session.incorrectDecisions,
        remainingSecondaryChecks := session.remainingSecondaryChecks,
        sessionComplete :=
          session.currentCaseIndex ≥ (session.cases.length : Int) })

/-! ## Operation sequences over a session store -/

/-- One post-creation API operation (the four session-reading or
session-mutating endpoints). -/
inductive Op where
  | resolve (sid cid : String) (dec : Decision) (verdictB : GenBehaviour String)
  | secondary (sid cid employeeId : String)
  | nextCase (sid : String)
  | status (sid : String)

/-- The store after one operation (errors leave the store unchanged, as in
the handlers). -/
def applyOp (st : Store) (op : Op) : Store :=
  match op with
  | .resolve sid cid dec verdictB => (resolveCase st sid cid dec verdictB).1
  | .secondary sid cid employeeId => (secondaryCheck st sid cid employeeId).1
  | .nextCase sid => (getNextCase st sid).1
  | .status sid => (getSessionStatus st sid).1

/-- The store after a sequence of operations. -/
def applyOps (st : Store) (ops : List Op) : Store :=
  ops.foldl applyOp st

/-- The session after `UpdateScore`'s transaction body. -/
def scoredSession (s : Session) (scoreDelta : Int) (correct : Bool) : Session :=
  { s with
    score := s.score + scoreDelta
    correctDecisions :=
      if correct then s.correctDecisions + 1 else s.correctDecisions
    incorrectDecisions :=
      if correct then s.incorrectDecisions else s.incorrectDecisions + 1 }

/-- The session after `IncrementCaseIndex`'s transaction body. -/
def advancedSession (s : Session) : Session :=
  { s with currentCaseIndex := s.currentCaseIndex + 1 }

/-- What any single post-creation operation may do to one session: the
case list is untouched, the cursor never decreases, the remaining
secondary-check count never increases and stays nonnegative if it was. -/
def Evolves (s s' : Session) : Prop :=
  s'.cases = s.cases ∧
  s.currentCaseIndex ≤ s'.currentCaseIndex ∧
  s'.remainingSecondaryChecks ≤ s.remainingSecondaryChecks ∧
  (0 ≤ s.remainingSecondaryChecks → 0 ≤ s'.remainingSecondaryChecks)

/-- Run a list of resolve calls against one session, collecting each
response's correct flag; `none` as soon as one call fails. -/
def runResolves (st : Store) (sid : String) :
    List (String × Decision × GenBehaviour String) → Option (Store × List Bool)
  | [] => some (st, [])
  | (cid, dec, verdictB) :: rest =>
    match resolveCase st sid cid dec verdictB with
    | (st1, .ok resp) =>
      match runResolves st1 sid rest with
      | some (st2, flags) => some (st2, resp.correct :: flags)
      | none => none
    | (_, .error _) => none

/-- The effective case count of a `StartSession` call (the nonpositive
default of 15). -/
def pipelineTotal (inp : StartInputs) : Int :=
  if inp.numCasesReq ≤ 0 then 15 else inp.numCasesReq

/-- The game date string of a `StartSession` call (now plus 100 years). -/
def pipelineGameDate (inp : StartInputs) : String :=
  (goAddDate inp.now 100 0 0).format

/-- The case list a `StartSession` call commits. -/
def pipelineCases (inp : StartInputs) : List Case :=
  applyAudio
    (generateCases inp.casesB (pipelineTotal inp).toNat (pipelineGameDate inp) inp.now)
    inp.audio

/-- The session a `StartSession` call commits, given the rule list. -/
def pipelineSession (inp : StartInputs) (rules : List String) : Session :=
  { sessionID := inp.sessionID, gameDate := pipelineGameDate inp, rules := rules,
    cases := pipelineCases inp, currentCaseIndex := 0, score := 0,
    correctDecisions := 0, incorrectDecisions := 0,
    secondaryChecksQuota := 3, remainingSecondaryChecks := 3,
    completedCases := [] }

/-- The progress events of the case-generation loop. -/
def caseProgressEvents (inp : StartInputs) : List Event :=
  (List.range (pipelineTotal inp).toNat).map (fun i =>
    Event.progress i (pipelineTotal inp)
      ("Generating case " ++ toString (i + 1) ++ "/" ++
        toString (pipelineTotal inp) ++ "..."))

/-- The progress events of the audio-enrichment loop. -/
def audioProgressEvents (inp : StartInputs) : List Event :=
  (List.range
      (generateCases inp.casesB (pipelineTotal inp).toNat (pipelineGameDate inp)
        inp.now).length).map (fun i =>
    Event.progress i (pipelineTotal inp)
      ("Generating voice audio " ++ toString (i + 1) ++ "/" ++
        toString (pipelineTotal inp) ++ "..."))

/-- Decidable equality of results. -/
instance {ε α : Type} [DecidableEq ε] [DecidableEq α] : DecidableEq (Except ε α) := fun x y =>
  match x, y with
  | .ok a, .ok b =>
    match decEq a b with
    | isTrue h => isTrue (by rw [h])
    | isFalse h => isFalse (fun hh => by cases hh; exact h rfl)
  | .error a, .error b =>
    match decEq a b with
    | isTrue h => isTrue (by rw [h])
    | isFalse h => isFalse (fun hh => by cases hh; exact h rfl)
  | .ok _, .error _ => isFalse (fun hh => Except.noConfusion hh)
  | .error _, .ok _ => isFalse (fun hh => Except.noConfusion hh)

/-- Whether a sequence of progress currents is strictly increasing (the
ordering the spec asserts of the progress stream). -/
def strictlyIncreasing : List Int → Bool
  | [] => true
  | [_] => true
  | a :: b :: rest => a < b && strictlyIncreasing (b :: rest)

/-! ## Concrete sample data for witnesses and counterexamples -/

/-- A concrete case, as the pipeline could have stored it. -/
def sampleCase : Case :=
  { caseID := "case-1"
    npc :=
      { name := "Worker 1", role := "Drill Operator",
        department := "Mining Operations", personality := "tired",
        voiceID := "21m00Tcm4TlvDq8ikWAM", demeanor := "cooperative",
        portraitURL := "" }
    documents := []
    openingLine := "Hey, I need to catch the shuttle home. My shift's done."
    openingAudio := []
    truth :=
      { employeeID := "EMP-0001", actualTermEnd := "2125-10-12",
        actualClearance := "A", hasIncidents := false,
        hasDebriefIssues := false, shouldApprove := true,
        reason := "Shift complete, badge valid, cargo approved" }
    contradictions := []
    correctDecision := "approve" }

/-- A freshly created one-case session. -/
def sampleSession : Session :=
  { sessionID := "s1", gameDate := "2125-10-12", rules := ["r1"],
    cases := [sampleCase], currentCaseIndex := 0, score := 0,
    correctDecisions := 0, incorrectDecisions := 0,
    secondaryChecksQuota := 3, remainingSecondaryChecks := 3,
    completedCases := [] }

/-- A store holding the one sample session. -/
def sampleStore : Store := [("s1", sampleSession)]

/-- The sample session with its secondary-check quota used up. -/
def drainedSession : Session :=
  { sampleSession with remainingSecondaryChecks := 0 }

/-- A store holding the drained session. -/
def drainedStore : Store := [("s1", drainedSession)]

/-- A concrete parsed case draft (a successful generator response row). -/
def sampleDraft : CaseDraft :=
  { npc :=
      { name := "Ada Karlsen", role := "Ore Processor",
        department := "Excavation", personality := "nervous",
        demeanor := "evasive" }
    employeeBadge := [("name", "Ada Karlsen"), ("picture", "USE_CASE_ID_AS_SEED")]
    clearanceForm := [("name", "Ada Karlsen"), ("shift_status", "COMPLETE")]
    openingLine := "Long day. Let me through?"
    truth := { employeeID := "EMP-7777", shouldApprove := true, reason := "All clear" }
    contradictions := []
    correctDecision := "approve" }

/-- One concrete assignment of the mock-rules random draws. -/
def sampleRand : RulesRand :=
  { shiftIdx1 := 0, pickSecond := false, shiftIdx2 := 0, cargoIdx := 0, badgeIdx := 0 }

/-- A second assignment differing in the first shift-rule draw. -/
def otherRand : RulesRand :=
  { shiftIdx1 := 1, pickSecond := false, shiftIdx2 := 0, cargoIdx := 0, badgeIdx := 0 }

/-- A concrete wall-clock date. -/
def sampleDate : Date := { year := 2025, month := 10, day := 12 }

/-- The number of cases of the session a pipeline result stored under an
id, when the pipeline succeeded and the session exists. -/
def sessionCaseCount (r : Except ErrCode Store) (sid : String) : Option Nat :=
  match r with
  | .ok st => (findSession st sid).map (fun s => s.cases.length)
  | .error _ => none

/-- Whether a pipeline result committed a store. -/
def isOkResult : Except ErrCode Store → Bool
  | .ok _ => true
  | .error _ => false

/-- The sample store after one consumed secondary check. -/
def usedStore : Store :=
  [("s1", { sampleSession with remainingSecondaryChecks := 2 })]

/-- The deterministic response of a secondary check against the sample
case's ground truth. -/
def sampleCheckResp : SecondaryCheckResponse :=
  { valid := true, message := "Contract verified: Term ends 2125-10-12",
    remainingChecks := 2 }

/-- A pipeline input with requested count 2 whose generator successfully
returns a parsed batch of a single case. -/
def shortBatchInp : StartInputs :=
  { numCasesReq := 2, now := sampleDate, sessionID := "s1",
    rulesB := .unavailable, rulesRand := sampleRand,
    casesB := .success [sampleDraft], audio := [], saveOk := true }

/-- A pipeline input with requested count 3 and an unavailable generator
(mock mode). -/
def mockPipelineInp : StartInputs :=
  { numCasesReq := 3, now := sampleDate, sessionID := "s1",
    rulesB := .unavailable, rulesRand := sampleRand,
    casesB := .unavailable, audio := [], saveOk := true }

/-- Two resolve calls against the one-case sample session. -/
def overrunOps : List Op :=
  [Op.resolve "s1" "case-1" .approve .unavailable,
   Op.resolve "s1" "case-1" .approve .unavailable]

/-- A pipeline input whose rule-generation call hits a transport error. -/
def rulesErrorInp : StartInputs :=
  { numCasesReq := 1, now := sampleDate, sessionID := "s1",
    rulesB := .transportError, rulesRand := sampleRand,
    casesB := .unavailable, audio := [], saveOk := true }

/-- A pipeline input with requested count 1 and a successfully parsed
single-case batch. -/
def oneCaseSuccessInp : StartInputs :=
  { numCasesReq := 1, now := sampleDate, sessionID := "s1",
    rulesB := .unavailable, rulesRand := sampleRand,
    casesB := .success [sampleDraft], audio := [], saveOk := true }

/-- A pipeline input with requested count 0 and a successfully parsed
single-case batch. -/
def defaultCountInp : StartInputs :=
  { numCasesReq := 0, now := sampleDate, sessionID := "s1",
    rulesB := .unavailable, rulesRand := sampleRand,
    casesB := .success [sampleDraft], audio := [], saveOk := true }

/-- A pipeline input with a negative requested count and an unavailable
generator. -/
def defaultMockInp : StartInputs :=
  { numCasesReq := -2, now := sampleDate, sessionID := "s1",
    rulesB := .unavailable, rulesRand := sampleRand,
    casesB := .unavailable, audio := [], saveOk := true }

/-- The sample store after an approve followed by a deny on its case. -/
def resolvedTwiceStore : Store :=
  [("s1",
    { sampleSession with
        currentCaseIndex := 2
        score := -5
        correctDecisions := 1
        incorrectDecisions := 1 })]

/-! ## Store and handler lemmas -/

theorem findSession_setSession_self (st : Store) (sid : String) (s : Session) :
    findSession (setSession st sid s) sid = some s := by
  induction st with
  | nil => simp [setSession, findSession]
  | cons hd tl ih =>
    obtain ⟨k, v⟩ := hd
    by_cases hk : k = sid
    · simp [setSession, findSession, hk]
    · simp [setSession, findSession, hk, ih]

theorem findSession_setSession_ne (st : Store) (sid k : String) (s : Session)
    (hne : k ≠ sid) : findSession (setSession st sid s) k = findSession st k := by
  induction st with
  | nil => simp [setSession, findSession, Ne.symm hne]
  | cons hd tl ih =>
    obtain ⟨k', v⟩ := hd
    by_cases hk : k' = sid
    · subst hk
      simp [setSession, findSession, Ne.symm hne]
    · simp only [setSession, if_neg hk]
      by_cases hk2 : k' = k
      · simp [findSession, hk2]
      · simp [findSession, hk2, ih]

theorem setSession_setSession (st : Store) (sid : String) (a b : Session) :
    setSession (setSession st sid a) sid b = setSession st sid b := by
  induction st with
  | nil => simp [setSession]
  | cons hd tl ih =>
    obtain ⟨k, v⟩ := hd
    by_cases hk : k = sid
    · simp [setSession, hk]
    · simp [setSession, hk, ih]

theorem updateScore_eq (st : Store) (sid : String) (scoreDelta : Int)
    (correct : Bool) (s : Session) (hs : findSession st sid = some s) :
    updateScore st sid scoreDelta correct =
      some (setSession st sid (scoredSession s scoreDelta correct)) := by
  simp [updateScore, hs, scoredSession]

theorem incrementCaseIndex_eq (st : Store) (sid : String) (s : Session)
    (hs : findSession st sid = some s) :
    incrementCaseIndex st sid = some (setSession st sid (advancedSession s)) := by
  simp [incrementCaseIndex, hs, advancedSession]

theorem useSecondaryCheck_eq (st : Store) (sid : String) (s : Session)
    (hs : findSession st sid = some s) (hq : 0 < s.remainingSecondaryChecks) :
    useSecondaryCheck st sid =
      some (setSession st sid
        { s with remainingSecondaryChecks := s.remainingSecondaryChecks - 1 }) := by
  simp [useSecondaryCheck, hs, not_le.mpr hq]

/-- Full description of `ResolveCase` on an existing session and case with
any decision other than `SECONDARY`. -/
theorem resolveCase_ok (st : Store) (sid cid : String) (dec : Decision)
    (verdictB : GenBehaviour String) (s : Session) (c : Case)
    (hs : findSession st sid = some s)
    (hc : getCase st sid cid = some c)
    (hdec : dec ≠ .secondary) :
    resolveCase st sid cid dec verdictB =
      (setSession st sid (advancedSession (scoredSession s
          (if decisionString dec == c.correctDecision then 10 else -15)
          (decisionString dec == c.correctDecision))),
       .ok
         { correct := decisionString dec == c.correctDecision,
           verdict := generateVerdict verdictB c (decisionString dec),
           contradictionsFound := c.contradictions,
           scoreDelta := if decisionString dec == c.correctDecision then 10 else -15,
           totalScore :=
             s.score + (if decisionString dec == c.correctDecision then 10 else -15),
           outcome :=
             resolveOutcome (decisionString dec == c.correctDecision)
               (decisionString dec) }) := by
  have h1 := updateScore_eq st sid
    (if decisionString dec == c.correctDecision then 10 else -15)
    (decisionString dec == c.correctDecision) s hs
  have h2 := incrementCaseIndex_eq
    (setSession st sid (scoredSession s
      (if decisionString dec == c.correctDecision then 10 else -15)
      (decisionString dec == c.correctDecision))) sid _
    (findSession_setSession_self _ _ _)
  cases dec with
  | secondary => exact absurd rfl hdec
  | unspecified =>
    simp only [resolveCase, hs, hc, h1, h2, setSession_setSession,
      findSession_setSession_self]
    simp [advancedSession, scoredSession]
  | approve =>
    simp only [resolveCase, hs, hc, h1, h2, setSession_setSession,
      findSession_setSession_self]
    simp [advancedSession, scoredSession]
  | deny =>
    simp only [resolveCase, hs, hc, h1, h2, setSession_setSession,
      findSession_setSession_self]
    simp [advancedSession, scoredSession]

/-- Full description of a successful `SecondaryCheck`. -/
theorem secondaryCheck_ok (st : Store) (sid cid employeeId : String)
    (s : Session) (c : Case)
    (hs : findSession st sid = some s)
    (hq : 0 < s.remainingSecondaryChecks)
    (hc : getCase st sid cid = some c) :
    secondaryCheck st sid cid employeeId =
      (setSession st sid
         { s with remainingSecondaryChecks := s.remainingSecondaryChecks - 1 },
       .ok
         { valid := employeeId == c.truth.employeeID,
           message := "Contract verified: Term ends " ++ c.truth.actualTermEnd,
           remainingChecks := s.remainingSecondaryChecks - 1 }) := by
  have h1 := useSecondaryCheck_eq st sid s hs hq
  simp only [secondaryCheck, hs, hc, h1]
  simp [not_le.mpr hq]

theorem getNextCase_fst (st : Store) (sid : String) :
    (getNextCase st sid).1 = st := by
  unfold getNextCase
  rcases findSession st sid with _ | s
  · rfl
  · dsimp only
    split
    · rfl
    · rcases s.cases.get? s.currentCaseIndex.toNat with _ | c <;> rfl

theorem getSessionStatus_fst (st : Store) (sid : String) :
    (getSessionStatus st sid).1 = st := by
  unfold getSessionStatus
  rcases findSession st sid with _ | s <;> rfl

/-! ## Session evolution under post-creation operations -/

theorem Evolves.refl (s : Session) : Evolves s s :=
  ⟨rfl, le_refl _, le_refl _, fun h => h⟩

theorem Evolves.trans {s s' s'' : Session}
    (h1 : Evolves s s') (h2 : Evolves s' s'') : Evolves s s'' :=
  ⟨h2.1.trans h1.1, h1.2.1.trans h2.2.1, h2.2.2.1.trans h1.2.2.1,
   fun h => h2.2.2.2 (h1.2.2.2 h)⟩

theorem applyOp_evolve (st : Store) (op : Op) (k : String) (s : Session)
    (hs : findSession st k = some s) :
    ∃ s', findSession (applyOp st op) k = some s' ∧ Evolves s s' := by
  cases op with
  | nextCase sid =>
    refine ⟨s, ?_, Evolves.refl s⟩
    simpa [applyOp, getNextCase_fst] using hs
  | status sid =>
    refine ⟨s, ?_, Evolves.refl s⟩
    simpa [applyOp, getSessionStatus_fst] using hs
  | secondary sid cid employeeId =>
    show ∃ s', findSession (secondaryCheck st sid cid employeeId).1 k = some s' ∧ _
    cases hfind : findSession st sid with
    | none => exact ⟨s, by simp [secondaryCheck, hfind, hs], Evolves.refl s⟩
    | some sess =>
      by_cases hq : sess.remainingSecondaryChecks ≤ 0
      · exact ⟨s, by simp [secondaryCheck, hfind, hq, hs], Evolves.refl s⟩
      · cases hcase : getCase st sid cid with
        | none => exact ⟨s, by simp [secondaryCheck, hfind, hq, hcase, hs], Evolves.refl s⟩
        | some c =>
          rw [secondaryCheck_ok st sid cid employeeId sess c hfind (lt_of_not_le hq) hcase]
          by_cases hk : k = sid
          · subst hk
            rw [hfind] at hs
            obtain rfl : sess = s := by injection hs
            refine ⟨_, findSession_setSession_self _ _ _, ?_, ?_, ?_, ?_⟩
            · rfl
            · exact le_refl _
            · simp
            · intro _
              simp only
              omega
          · exact ⟨s, by rw [findSession_setSession_ne _ _ _ _ hk]; exact hs,
              Evolves.refl s⟩
  | resolve sid cid dec verdictB =>
    show ∃ s', findSession (resolveCase st sid cid dec verdictB).1 k = some s' ∧ _
    cases hfind : findSession st sid with
    | none => exact ⟨s, by simp [resolveCase, hfind, hs], Evolves.refl s⟩
    | some sess =>
      cases hcase : getCase st sid cid with
      | none => exact ⟨s, by simp [resolveCase, hfind, hcase, hs], Evolves.refl s⟩
      | some c =>
        by_cases hdec : dec = .secondary
        · subst hdec
          exact ⟨s, by simp [resolveCase, hfind, hcase, hs], Evolves.refl s⟩
        · rw [resolveCase_ok st sid cid dec verdictB sess c hfind hcase hdec]
          by_cases hk : k = sid
          · subst hk
            rw [hfind] at hs
            obtain rfl : sess = s := by injection hs
            refine ⟨_, findSession_setSession_self _ _ _, ?_, ?_, ?_, ?_⟩
            · simp [advancedSession, scoredSession]
            · simp [advancedSession, scoredSession]
            · simp [advancedSession, scoredSession]
            · simp [advancedSession, scoredSession]
          · exact ⟨s, by rw [findSession_setSession_ne _ _ _ _ hk]; exact hs,
              Evolves.refl s⟩

theorem applyOps_evolve (ops : List Op) (st : Store) (k : String) (s : Session)
    (hs : findSession st k = some s) :
    ∃ s', findSession (applyOps st ops) k = some s' ∧ Evolves s s' := by
  induction ops generalizing st s with
  | nil => exact ⟨s, hs, Evolves.refl s⟩
  | cons op ops ih =>
    obtain ⟨s1, h1, e1⟩ := applyOp_evolve st op k s hs
    obtain ⟨s2, h2, e2⟩ := ih (applyOp st op) s1 h1
    exact ⟨s2, h2, e1.trans e2⟩

/-- Exact trichotomy of one operation's effect on one session: untouched,
one secondary check consumed, or one case resolved (scored and the cursor
advanced). -/
theorem applyOp_rcases (st : Store) (op : Op) (k : String) (s : Session)
    (hs : findSession st k = some s) :
    findSession (applyOp st op) k = some s ∨
    (findSession (applyOp st op) k =
        some { s with remainingSecondaryChecks := s.remainingSecondaryChecks - 1 } ∧
      0 < s.remainingSecondaryChecks) ∨
    (∃ cid dec verdictB scoreDelta correct,
      op = Op.resolve k cid dec verdictB ∧
      findSession (applyOp st op) k =
        some (advancedSession (scoredSession s scoreDelta correct))) := by
  cases op with
  | nextCase sid =>
    exact Or.inl (by simpa [applyOp, getNextCase_fst] using hs)
  | status sid =>
    exact Or.inl (by simpa [applyOp, getSessionStatus_fst] using hs)
  | secondary sid cid employeeId =>
    cases hfind : findSession st sid with
    | none => exact Or.inl (by simpa [applyOp, secondaryCheck, hfind] using hs)
    | some sess =>
      by_cases hq : sess.remainingSecondaryChecks ≤ 0
      · exact Or.inl (by simpa [applyOp, secondaryCheck, hfind, hq] using hs)
      · cases hcase : getCase st sid cid with
        | none =>
          exact Or.inl (by simpa [applyOp, secondaryCheck, hfind, hq, hcase] using hs)
        | some c =>
          have heq :=
            secondaryCheck_ok st sid cid employeeId sess c hfind (lt_of_not_le hq) hcase
          by_cases hk : k = sid
          · subst hk
            rw [hfind] at hs
            obtain rfl : sess = s := by injection hs
            refine Or.inr (Or.inl ⟨?_, lt_of_not_le hq⟩)
            simp [applyOp, heq, findSession_setSession_self]
          · refine Or.inl ?_
            simp only [applyOp, heq]
            rw [findSession_setSession_ne _ _ _ _ hk]
            exact hs
  | resolve sid cid dec verdictB =>
    cases hfind : findSession st sid with
    | none => exact Or.inl (by simpa [applyOp, resolveCase, hfind] using hs)
    | some sess =>
      cases hcase : getCase st sid cid with
      | none => exact Or.inl (by simpa [applyOp, resolveCase, hfind, hcase] using hs)
      | some c =>
        by_cases hdec : dec = .secondary
        · subst hdec
          exact Or.inl (by simpa [applyOp, resolveCase, hfind, hcase] using hs)
        · have heq := resolveCase_ok st sid cid dec verdictB sess c hfind hcase hdec
          by_cases hk : k = sid
          · subst hk
            rw [hfind] at hs
            obtain rfl : sess = s := by injection hs
            refine Or.inr (Or.inr ⟨cid, dec, verdictB,
              (if decisionString dec == c.correctDecision then 10 else -15),
              (decisionString dec == c.correctDecision), rfl, ?_⟩)
            simp [applyOp, heq, findSession_setSession_self]
          · refine Or.inl ?_
            simp only [applyOp, heq]
            rw [findSession_setSession_ne _ _ _ _ hk]
            exact hs

/-- Inversion of a successful `SecondaryCheck`: its validity flag and
message are computed from the stored case found in the session. -/
theorem secondaryCheck_ok_inv (st : Store) (sid cid employeeId : String)
    (stA : Store) (r : SecondaryCheckResponse)
    (h : secondaryCheck st sid cid employeeId = (stA, .ok r)) :
    ∃ s c, findSession st sid = some s ∧ getCase st sid cid = some c ∧
      r.valid = (employeeId == c.truth.employeeID) ∧
      r.message = "Contract verified: Term ends " ++ c.truth.actualTermEnd := by
  cases hfind : findSession st sid with
  | none => simp [secondaryCheck, hfind] at h
  | some sess =>
    by_cases hq : sess.remainingSecondaryChecks ≤ 0
    · simp [secondaryCheck, hfind, hq] at h
    · cases hcase : getCase st sid cid with
      | none => simp [secondaryCheck, hfind, hq, hcase] at h
      | some c =>
        have heq :=
          secondaryCheck_ok st sid cid employeeId sess c hfind (lt_of_not_le hq) hcase
        rw [heq] at h
        injection h with h1 h2
        injection h2 with h3
        exact ⟨sess, c, rfl, rfl, by rw [← h3], by rw [← h3]⟩

/-- Inversion of a successful `ResolveCase` against a known session: the
resulting store holds the scored and advanced session, and the response's
correct flag is the comparison against the stored correct decision. -/
theorem resolveCase_ok_inv (st : Store) (sid cid : String) (dec : Decision)
    (verdictB : GenBehaviour String) (st1 : Store) (resp : ResolveCaseResponse)
    (s : Session) (hs : findSession st sid = some s)
    (h : resolveCase st sid cid dec verdictB = (st1, .ok resp)) :
    ∃ c, getCase st sid cid = some c ∧ dec ≠ .secondary ∧
      resp.correct = (decisionString dec == c.correctDecision) ∧
      st1 = setSession st sid (advancedSession (scoredSession s
        (if resp.correct then 10 else -15) resp.correct)) := by
  cases hcase : getCase st sid cid with
  | none =>
    simp [resolveCase, hs, hcase] at h
  | some c =>
    by_cases hdec : dec = .secondary
    · subst hdec
      simp [resolveCase, hs, hcase] at h
    · have heq := resolveCase_ok st sid cid dec verdictB s c hs hcase hdec
      rw [heq] at h
      injection h with h1 h2
      injection h2 with h3
      refine ⟨c, rfl, hdec, ?_, ?_⟩
      · rw [← h3]
      · rw [← h1, ← h3]

/-- Number of cases of the procedural fallback batch. -/
theorem length_mockCases (count : Nat) (gameDate : String) (now : Date) :
    (mockCases count gameDate now).length = count := by
  simp [mockCases]

/-- Audio enrichment does not change the number of cases. -/
theorem length_applyAudio (cases : List Case) (audio : List AudioResult) :
    (applyAudio cases audio).length = cases.length := by
  simp [applyAudio, List.length_mapIdx]

/-- Number of cases `GenerateCases` yields, per behaviour. -/
theorem length_generateCases (b : GenBehaviour (List CaseDraft)) (count : Nat)
    (gameDate : String) (now : Date) :
    (generateCases b count gameDate now).length =
      (match b with
       | .success drafts => drafts.length
       | _ => count) := by
  cases b <;> simp [generateCases, length_mockCases, List.length_mapIdx]

/-- Ledger bookkeeping of a successful run of resolve calls: the cursor
advances once per call, the counters count the correct flags, and the
score accumulates the fixed per-call deltas. -/
theorem runResolves_spec (calls : List (String × Decision × GenBehaviour String))
    (st : Store) (sid : String) (s : Session) (st' : Store) (flags : List Bool)
    (hs : findSession st sid = some s)
    (h : runResolves st sid calls = some (st', flags)) :
    ∃ s', findSession st' sid = some s' ∧
      s'.currentCaseIndex = s.currentCaseIndex + flags.length ∧
      s'.correctDecisions = s.correctDecisions + flags.count true ∧
      s'.incorrectDecisions = s.incorrectDecisions + flags.count false ∧
      s'.score = s.score + (flags.map (fun b => if b then (10 : Int) else -15)).sum ∧
      s'.cases = s.cases := by
  induction calls generalizing st s flags with
  | nil =>
    simp only [runResolves, Option.some.injEq, Prod.mk.injEq] at h
    obtain ⟨rfl, rfl⟩ := h
    exact ⟨s, hs, by simp, by simp, by simp, by simp, rfl⟩
  | cons call rest ih =>
    obtain ⟨cid, dec, verdictB⟩ := call
    rcases hres : resolveCase st sid cid dec verdictB with ⟨st1, r⟩
    cases r with
    | error e => simp [runResolves, hres] at h
    | ok resp =>
      rcases hrun : runResolves st1 sid rest with _ | ⟨st2, flags'⟩
      · simp [runResolves, hres, hrun] at h
      · simp only [runResolves, hres, hrun, Option.some.injEq, Prod.mk.injEq] at h
        obtain ⟨rfl, rfl⟩ := h
        obtain ⟨c, hc, hdec, hcorr, hst1⟩ :=
          resolveCase_ok_inv st sid cid dec verdictB st1 resp s hs hres
        have hs1 : findSession st1 sid =
            some (advancedSession (scoredSession s
              (if resp.correct then 10 else -15) resp.correct)) := by
          rw [hst1]
          exact findSession_setSession_self _ _ _
        obtain ⟨s', hfind', hcur, hcorrn, hincn, hscore, hcases⟩ :=
          ih st1 _ flags' hs1 hrun
        refine ⟨s', hfind', ?_, ?_, ?_, ?_, ?_⟩
        · rw [hcur]
          simp only [advancedSession, scoredSession, List.length_cons]
          omega
        · rw [hcorrn]
          cases hrc : resp.correct <;>
            (simp [advancedSession, scoredSession, hrc, List.count_cons]; try omega)
        · rw [hincn]
          cases hrc : resp.correct <;>
            (simp [advancedSession, scoredSession, hrc, List.count_cons]; try omega)
        · rw [hscore]
          cases hrc : resp.correct <;>
            (simp [advancedSession, scoredSession, hrc]; try ring)
        · rw [hcases]
          simp [advancedSession, scoredSession]

/-! ## Claims -/

/-- Claim C2: resolving an existing case of an existing session with
Approve or Deny succeeds; the response's correct flag equals the
comparison of the decision with the case's stored correct decision; the
score delta applied is +10 when correct and −15 when incorrect; exactly
the matching decision counter is incremented; and the session cursor
advances by exactly one, regardless of which case id of the session was
supplied. -/
theorem claim_C2_resolve_scoring (st : Store) (sid cid : String)
    (dec : Decision) (verdictB : GenBehaviour String) (s : Session) (c : Case)
    (hs : findSession st sid = some s)
    (hc : getCase st sid cid = some c)
    (hdec : dec = .approve ∨ dec = .deny) :
    ∃ st' resp, resolveCase st sid cid dec verdictB = (st', .ok resp) ∧
      resp.correct = (decisionString dec == c.correctDecision) ∧
      resp.scoreDelta = (if resp.correct then 10 else -15) ∧
      ∃ s', findSession st' sid = some s' ∧
        s'.score = s.score + (if resp.correct then 10 else -15) ∧
        s'.correctDecisions =
          (if resp.correct then s.correctDecisions + 1 else s.correctDecisions) ∧
        s'.incorrectDecisions =
          (if resp.correct then s.incorrectDecisions else s.incorrectDecisions + 1) ∧
        s'.currentCaseIndex = s.currentCaseIndex + 1 := by
  have hdec' : dec ≠ .secondary := by
    rcases hdec with h | h <;> subst h <;> simp
  have heq := resolveCase_ok st sid cid dec verdictB s c hs hc hdec'
  refine ⟨_, _, heq, rfl, by simp, _, findSession_setSession_self _ _ _,
    ?_, ?_, ?_, ?_⟩ <;> simp [advancedSession, scoredSession]

/-- Witness for C2: Approve on the sample store's only case. -/
theorem claim_C2_witness :
    findSession sampleStore "s1" = some sampleSession ∧
    getCase sampleStore "s1" "case-1" = some sampleCase ∧
    (Decision.approve = Decision.approve ∨ Decision.approve = Decision.deny) ∧
    (∃ st' resp,
      resolveCase sampleStore "s1" "case-1" .approve .unavailable = (st', .ok resp) ∧
      resp.correct = (decisionString .approve == sampleCase.correctDecision) ∧
      resp.scoreDelta = (if resp.correct then 10 else -15) ∧
      ∃ s', findSession st' "s1" = some s' ∧
        s'.score = sampleSession.score + (if resp.correct then 10 else -15) ∧
        s'.correctDecisions =
          (if resp.correct then sampleSession.correctDecisions + 1
           else sampleSession.correctDecisions) ∧
        s'.incorrectDecisions =
          (if resp.correct then sampleSession.incorrectDecisions
           else sampleSession.incorrectDecisions + 1) ∧
        s'.currentCaseIndex = sampleSession.currentCaseIndex + 1) :=
  ⟨by decide, by decide, Or.inl rfl,
   claim_C2_resolve_scoring sampleStore "s1" "case-1" .approve .unavailable
     sampleSession sampleCase (by decide) (by decide) (Or.inl rfl)⟩

/-- Claim C4: with zero remaining secondary checks, every secondaryCheck
call returns ResourceExhausted and leaves the store — hence the session
and its quota — exactly unchanged; and over any operation sequence the
remaining count never increases and never drops below zero. -/
theorem claim_C4_quota_floor (st : Store) (sid : String) (s : Session)
    (hs : findSession st sid = some s) :
    (s.remainingSecondaryChecks = 0 →
      ∀ cid employeeId,
        secondaryCheck st sid cid employeeId = (st, .error .resourceExhausted)) ∧
    (∀ ops s', 0 ≤ s.remainingSecondaryChecks →
      findSession (applyOps st ops) sid = some s' →
      0 ≤ s'.remainingSecondaryChecks ∧
        s'.remainingSecondaryChecks ≤ s.remainingSecondaryChecks) := by
  constructor
  · intro h0 cid employeeId
    simp [secondaryCheck, hs, h0]
  · intro ops s' hnn hfind'
    obtain ⟨s'', hfind'', e⟩ := applyOps_evolve ops st sid s hs
    rw [hfind''] at hfind'
    obtain rfl : s'' = s' := by injection hfind'
    exact ⟨e.2.2.2 hnn, e.2.2.1⟩

/-- Witness for C4: the drained sample session. -/
theorem claim_C4_witness :
    findSession drainedStore "s1" = some drainedSession ∧
    ((drainedSession.remainingSecondaryChecks = 0 →
      ∀ cid employeeId,
        secondaryCheck drainedStore "s1" cid employeeId =
          (drainedStore, .error .resourceExhausted)) ∧
     (∀ ops s', 0 ≤ drainedSession.remainingSecondaryChecks →
      findSession (applyOps drainedStore ops) "s1" = some s' →
      0 ≤ s'.remainingSecondaryChecks ∧
        s'.remainingSecondaryChecks ≤ drainedSession.remainingSecondaryChecks)) :=
  ⟨by decide, claim_C4_quota_floor drainedStore "s1" drainedSession (by decide)⟩

/-- Claim C5: any two successful secondaryCheck calls for the same
session, case and claimed employee id return the same validity flag and
the same message, regardless of how many operations ran in between or in
what order. -/
theorem claim_C5_determinism (st : Store) (ops : List Op)
    (sid cid employeeId : String) (stA stB : Store)
    (r1 r2 : SecondaryCheckResponse)
    (h1 : secondaryCheck st sid cid employeeId = (stA, .ok r1))
    (h2 : secondaryCheck (applyOps st ops) sid cid employeeId = (stB, .ok r2)) :
    r1.valid = r2.valid ∧ r1.message = r2.message := by
  obtain ⟨s, c, hsfind, hcase, hv1, hm1⟩ :=
    secondaryCheck_ok_inv st sid cid employeeId stA r1 h1
  obtain ⟨s2, c2, hsfind2, hcase2, hv2, hm2⟩ :=
    secondaryCheck_ok_inv (applyOps st ops) sid cid employeeId stB r2 h2
  obtain ⟨s', hfind', e⟩ := applyOps_evolve ops st sid s hsfind
  rw [hfind'] at hsfind2
  obtain rfl : s' = s2 := by injection hsfind2
  have hsame : getCase (applyOps st ops) sid cid = getCase st sid cid := by
    simp [getCase, hfind', hsfind, e.1]
  rw [hsame, hcase] at hcase2
  obtain rfl : c = c2 := by injection hcase2
  exact ⟨hv1.trans hv2.symm, hm1.trans hm2.symm⟩

/-- Witness for C5: the same check before and after a status call. -/
theorem claim_C5_witness :
    secondaryCheck sampleStore "s1" "case-1" "EMP-0001" =
      (usedStore, .ok sampleCheckResp) ∧
    secondaryCheck (applyOps sampleStore [Op.status "s1"]) "s1" "case-1" "EMP-0001" =
      (usedStore, .ok sampleCheckResp) ∧
    (sampleCheckResp.valid = sampleCheckResp.valid ∧
      sampleCheckResp.message = sampleCheckResp.message) :=
  ⟨by decide, by decide,
   claim_C5_determinism sampleStore [Op.status "s1"] "s1" "case-1" "EMP-0001"
     usedStore usedStore sampleCheckResp sampleCheckResp (by decide) (by decide)⟩

/-- Claim C9: after any finite sequence of successful resolve calls on a
freshly created session, the correct and incorrect counters sum to the
cursor, and the total score equals the sum over the sequence of +10 per
correct and −15 per incorrect decision. -/
theorem claim_C9_ledger (st : Store) (sid : String) (s : Session)
    (calls : List (String × Decision × GenBehaviour String))
    (st' : Store) (flags : List Bool)
    (hs : findSession st sid = some s)
    (hfresh : s.currentCaseIndex = 0 ∧ s.score = 0 ∧
      s.correctDecisions = 0 ∧ s.incorrectDecisions = 0)
    (h : runResolves st sid calls = some (st', flags)) :
    ∃ s', findSession st' sid = some s' ∧
      s'.correctDecisions + s'.incorrectDecisions = s'.currentCaseIndex ∧
      s'.score = (flags.map (fun b => if b then (10 : Int) else -15)).sum := by
  obtain ⟨hcur0, hsc0, hc0, hi0⟩ := hfresh
  obtain ⟨s', hfind', hcur, hcorr, hinc, hscore, -⟩ :=
    runResolves_spec calls st sid s st' flags hs h
  refine ⟨s', hfind', ?_, ?_⟩
  · rw [hcur, hcorr, hinc, hcur0, hc0, hi0]
    have hcount : ∀ l : List Bool, l.count true + l.count false = l.length := by
      intro l
      induction l with
      | nil => rfl
      | cons b l ih => cases b <;> simp [List.count_cons] <;> omega
    have hc2 := hcount flags
    omega
  · rw [hscore, hsc0]
    simp

/-- Witness for C9: a correct approve then an incorrect deny on the
sample session. -/
theorem claim_C9_witness :
    findSession sampleStore "s1" = some sampleSession ∧
    (sampleSession.currentCaseIndex = 0 ∧ sampleSession.score = 0 ∧
      sampleSession.correctDecisions = 0 ∧ sampleSession.incorrectDecisions = 0) ∧
    runResolves sampleStore "s1"
      [("case-1", Decision.approve, GenBehaviour.unavailable),
       ("case-1", Decision.deny, GenBehaviour.unavailable)] =
      some (resolvedTwiceStore, [true, false]) ∧
    (∃ s', findSession resolvedTwiceStore "s1" = some s' ∧
      s'.correctDecisions + s'.incorrectDecisions = s'.currentCaseIndex ∧
      s'.score = ([true, false].map (fun b => if b then (10 : Int) else -15)).sum) :=
  ⟨by decide, by decide, by decide,
   claim_C9_ledger sampleStore "s1" sampleSession
     [("case-1", Decision.approve, GenBehaviour.unavailable),
      ("case-1", Decision.deny, GenBehaviour.unavailable)]
     resolvedTwiceStore [true, false] (by decide) (by decide) (by decide)⟩

/-- Claim C6 (counterexample): the unspecified decision value is neither
Approve nor Deny, yet resolve neither returns InvalidArgument nor leaves
the session unchanged — it mutates the store. -/
theorem claim_C6_counterexample :
    (resolveCase sampleStore "s1" "case-1" .unspecified .unavailable).2 ≠
      .error .invalidArgument ∧
    (resolveCase sampleStore "s1" "case-1" .unspecified .unavailable).1 ≠
      sampleStore := by
  decide

/-- Claim C6 (amended): only the SECONDARY decision value is rejected
with InvalidArgument, leaving the store unchanged; the unspecified value
is not rejected — it is processed as an incorrect decision (its player
decision string is empty and can never match the stored correct
decision), scoring −15, bumping the incorrect counter and advancing the
cursor. -/
theorem claim_C6_amended (st : Store) (sid cid : String)
    (verdictB : GenBehaviour String) (s : Session) (c : Case)
    (hs : findSession st sid = some s)
    (hc : getCase st sid cid = some c)
    (hcd : c.correctDecision = "approve" ∨ c.correctDecision = "deny") :
    resolveCase st sid cid .secondary verdictB = (st, .error .invalidArgument) ∧
    (∃ st' resp,
      resolveCase st sid cid .unspecified verdictB = (st', .ok resp) ∧
      resp.correct = false ∧ resp.scoreDelta = -15 ∧
      ∃ s', findSession st' sid = some s' ∧
        s'.score = s.score + -15 ∧
        s'.incorrectDecisions = s.incorrectDecisions + 1 ∧
        s'.correctDecisions = s.correctDecisions ∧
        s'.currentCaseIndex = s.currentCaseIndex + 1) := by
  have hcorr : (decisionString .unspecified == c.correctDecision) = false := by
    rcases hcd with h | h <;> rw [h] <;> decide
  constructor
  · simp [resolveCase, hs, hc]
  · have heq := resolveCase_ok st sid cid .unspecified verdictB s c hs hc
      (by simp)
    rw [hcorr] at heq
    simp only [if_false, Bool.false_eq_true] at heq
    refine ⟨_, _, heq, rfl, rfl, _, findSession_setSession_self _ _ _,
      ?_, ?_, ?_, ?_⟩ <;> simp [advancedSession, scoredSession]

/-- Witness for C6 (amended) at the sample store. -/
theorem claim_C6_witness :
    findSession sampleStore "s1" = some sampleSession ∧
    getCase sampleStore "s1" "case-1" = some sampleCase ∧
    (sampleCase.correctDecision = "approve" ∨ sampleCase.correctDecision = "deny") ∧
    (resolveCase sampleStore "s1" "case-1" .secondary .unavailable =
        (sampleStore, .error .invalidArgument) ∧
     (∃ st' resp,
      resolveCase sampleStore "s1" "case-1" .unspecified .unavailable =
        (st', .ok resp) ∧
      resp.correct = false ∧ resp.scoreDelta = -15 ∧
      ∃ s', findSession st' "s1" = some s' ∧
        s'.score = sampleSession.score + -15 ∧
        s'.incorrectDecisions = sampleSession.incorrectDecisions + 1 ∧
        s'.correctDecisions = sampleSession.correctDecisions ∧
        s'.currentCaseIndex = sampleSession.currentCaseIndex + 1)) :=
  ⟨by decide, by decide, Or.inl rfl,
   claim_C6_amended sampleStore "s1" "case-1" .unavailable sampleSession
     sampleCase (by decide) (by decide) (Or.inl rfl)⟩

/-- Claim C3 (counterexample): two resolves of the sample store's only
case push the cursor to 2, exceeding the case-list length 1 — the cursor
is not bounded by the length of the case list. -/
theorem claim_C3_counterexample :
    (findSession (applyOps sampleStore overrunOps) "s1").map
      (fun s => (s.currentCaseIndex, s.cases.length)) = some (2, 1) ∧
    ¬ ((2 : Int) ≤ (1 : Int)) := by
  decide

/-- Claim C3 (amended): over any operation sequence the cursor is
monotonically non-decreasing; and a single operation preserves the bound
cursor ≤ len(cases) provided a resolve addressed to this session is only
issued while cursor < len(cases) — a resolve issued at
cursor = len(cases) advances past the bound. -/
theorem claim_C3_amended (st : Store) (k : String) (s : Session)
    (hs : findSession st k = some s) :
    (∀ ops s', findSession (applyOps st ops) k = some s' →
      s.currentCaseIndex ≤ s'.currentCaseIndex) ∧
    (∀ op s', s.currentCaseIndex ≤ (s.cases.length : Int) →
      (∀ cid dec verdictB, op = Op.resolve k cid dec verdictB →
        s.currentCaseIndex < (s.cases.length : Int)) →
      findSession (applyOp st op) k = some s' →
      s'.currentCaseIndex ≤ (s'.cases.length : Int)) := by
  constructor
  · intro ops s' hfind'
    obtain ⟨s'', h'', e⟩ := applyOps_evolve ops st k s hs
    rw [h''] at hfind'
    obtain rfl : s'' = s' := by injection hfind'
    exact e.2.1
  · intro op s' hbound hres hfind'
    rcases applyOp_rcases st op k s hs with h | ⟨h, hq⟩ |
      ⟨cid, dec, verdictB, scoreDelta, correct, hop, h⟩
    · rw [h] at hfind'
      obtain rfl : s = s' := by injection hfind'
      exact hbound
    · rw [h] at hfind'
      obtain rfl : { s with remainingSecondaryChecks :=
          s.remainingSecondaryChecks - 1 } = s' := by injection hfind'
      simpa using hbound
    · rw [h] at hfind'
      obtain rfl : advancedSession (scoredSession s scoreDelta correct) = s' := by
        injection hfind'
      have hlt := hres cid dec verdictB hop
      simp only [advancedSession, scoredSession]
      omega

/-- Witness for C3 (amended) at the sample store. -/
theorem claim_C3_witness :
    findSession sampleStore "s1" = some sampleSession ∧
    ((∀ ops s', findSession (applyOps sampleStore ops) "s1" = some s' →
      sampleSession.currentCaseIndex ≤ s'.currentCaseIndex) ∧
     (∀ op s', sampleSession.currentCaseIndex ≤ (sampleSession.cases.length : Int) →
      (∀ cid dec verdictB, op = Op.resolve "s1" cid dec verdictB →
        sampleSession.currentCaseIndex < (sampleSession.cases.length : Int)) →
      findSession (applyOp sampleStore op) "s1" = some s' →
      s'.currentCaseIndex ≤ (s'.cases.length : Int))) :=
  ⟨by decide, claim_C3_amended sampleStore "s1" sampleSession (by decide)⟩

/-- Claim C7 (counterexample): a transport error during rule generation
fails the whole pipeline with Internal rather than yielding a rule list,
and the fallback rules differ between two random draws — the substituted
fallback is not one fixed deterministic template. -/
theorem claim_C7_counterexample :
    (startSession rulesErrorInp []).2 = .error .internal ∧
    mockRules sampleRand ≠ mockRules otherRand := by
  decide

/-- Claim C7 (amended): with an unavailable client, empty output or
malformed output, rule generation always yields the built-in mock
fallback list (at least three rules drawn from fixed pools, varying with
the random draws rather than one fixed template); a transport error
instead fails the call, and the pipeline aborts with Internal. -/
theorem claim_C7_amended (r : RulesRand) (inp : StartInputs) (st : Store)
    (hb : inp.rulesB = .transportError) :
    generateRules .unavailable r = .ok (mockRules r) ∧
    generateRules .emptyText r = .ok (mockRules r) ∧
    generateRules .malformed r = .ok (mockRules r) ∧
    3 ≤ (mockRules r).length ∧
    generateRules .transportError r = .error () ∧
    (startSession inp st).2 = .error .internal := by
  refine ⟨rfl, rfl, rfl, ?_, rfl, ?_⟩
  · simp only [mockRules]
    split_ifs <;> simp
  · simp [startSession, generateRules, hb]

/-- Witness for C7 (amended) at a concrete input. -/
theorem claim_C7_witness :
    rulesErrorInp.rulesB = .transportError ∧
    (generateRules .unavailable sampleRand = .ok (mockRules sampleRand) ∧
     generateRules .emptyText sampleRand = .ok (mockRules sampleRand) ∧
     generateRules .malformed sampleRand = .ok (mockRules sampleRand) ∧
     3 ≤ (mockRules sampleRand).length ∧
     generateRules .transportError sampleRand = .error () ∧
     (startSession rulesErrorInp []).2 = .error .internal) :=
  ⟨by decide, claim_C7_amended sampleRand rulesErrorInp [] (by decide)⟩

/-- Any generator behaviour other than a transport error yields a rule
list. -/
theorem generateRules_ok_of_ne (b : GenBehaviour (List String)) (r : RulesRand)
    (hb : b ≠ .transportError) : ∃ rules, generateRules b r = .ok rules := by
  cases b with
  | transportError => exact absurd rfl hb
  | unavailable => exact ⟨_, rfl⟩
  | emptyText => exact ⟨_, rfl⟩
  | malformed => exact ⟨_, rfl⟩
  | success rules => exact ⟨rules, rfl⟩

/-- Full description of a committed `StartSession` run: the event stream
and the stored session. -/
theorem startSession_ok (inp : StartInputs) (st : Store) (rules : List String)
    (hgen : generateRules inp.rulesB inp.rulesRand = .ok rules)
    (hsave : inp.saveOk = true) :
    startSession inp st =
      (Event.progress 0 (pipelineTotal inp) "Generating daily rules..." ::
        ((caseProgressEvents inp ++ audioProgressEvents inp) ++
         [Event.ready inp.sessionID (pipelineGameDate inp) rules
            (pipelineTotal inp) 3]),
       .ok (saveSession st (pipelineSession inp rules))) := by
  simp only [startSession, hgen, hsave, pipelineTotal, pipelineGameDate,
    pipelineCases, pipelineSession, caseProgressEvents, audioProgressEvents,
    if_true, List.cons_append, List.append_assoc]

/-- Claim C1 (counterexample): with requested count 2 and a generator
response that parses successfully but contains a single case, the
committed session holds 1 case, not 2 — the pipeline does not enforce the
requested count on the success path. -/
theorem claim_C1_counterexample :
    sessionCaseCount (startSession shortBatchInp []).2 "s1" = some 1 ∧
    (1 : Nat) ≠ 2 := by
  decide

/-- Claim C1 (amended): for every requested count K > 0, whenever the
pipeline commits (rules call not in transport error, final write
succeeds), the session's case list has length exactly K for every
non-success generator behaviour (unavailable, transport error, empty or
malformed output); when the generator's response parses successfully the
list instead holds exactly the parsed cases, whose number need not be
K. -/
theorem claim_C1_amended (inp : StartInputs) (st : Store)
    (hK : 0 < inp.numCasesReq)
    (hrules : inp.rulesB ≠ .transportError)
    (hsave : inp.saveOk = true) :
    ∃ st' s, (startSession inp st).2 = .ok st' ∧
      findSession st' inp.sessionID = some s ∧
      ((∀ drafts, inp.casesB ≠ .success drafts) →
        (s.cases.length : Int) = inp.numCasesReq) ∧
      (∀ drafts, inp.casesB = .success drafts → s.cases.length = drafts.length) := by
  obtain ⟨rules, hgen⟩ := generateRules_ok_of_ne inp.rulesB inp.rulesRand hrules
  have heq := startSession_ok inp st rules hgen hsave
  have htot : pipelineTotal inp = inp.numCasesReq := if_neg (not_le.mpr hK)
  refine ⟨saveSession st (pipelineSession inp rules), pipelineSession inp rules,
    ?_, ?_, ?_, ?_⟩
  · rw [heq]
  · exact findSession_setSession_self st inp.sessionID _
  · intro hns
    show ((pipelineSession inp rules).cases.length : Int) = inp.numCasesReq
    simp only [pipelineSession, pipelineCases, length_applyAudio,
      length_generateCases]
    cases hb : inp.casesB with
    | success drafts => exact absurd hb (hns drafts)
    | unavailable =>
      show ((pipelineTotal inp).toNat : Int) = inp.numCasesReq
      rw [htot]
      exact Int.toNat_of_nonneg hK.le
    | transportError =>
      show ((pipelineTotal inp).toNat : Int) = inp.numCasesReq
      rw [htot]
      exact Int.toNat_of_nonneg hK.le
    | emptyText =>
      show ((pipelineTotal inp).toNat : Int) = inp.numCasesReq
      rw [htot]
      exact Int.toNat_of_nonneg hK.le
    | malformed =>
      show ((pipelineTotal inp).toNat : Int) = inp.numCasesReq
      rw [htot]
      exact Int.toNat_of_nonneg hK.le
  · intro drafts hb
    show (pipelineSession inp rules).cases.length = drafts.length
    simp only [pipelineSession, pipelineCases, length_applyAudio,
      length_generateCases, hb]

/-- Witness for C1 (amended): count 3 in mock mode. -/
theorem claim_C1_witness :
    0 < mockPipelineInp.numCasesReq ∧
    mockPipelineInp.rulesB ≠ .transportError ∧
    mockPipelineInp.saveOk = true ∧
    (∃ st' s, (startSession mockPipelineInp []).2 = .ok st' ∧
      findSession st' mockPipelineInp.sessionID = some s ∧
      ((∀ drafts, mockPipelineInp.casesB ≠ .success drafts) →
        (s.cases.length : Int) = mockPipelineInp.numCasesReq) ∧
      (∀ drafts, mockPipelineInp.casesB = .success drafts →
        s.cases.length = drafts.length)) :=
  ⟨by decide, by decide, by decide,
   claim_C1_amended mockPipelineInp [] (by decide) (by decide) (by decide)⟩

/-- Claim C8 (counterexample): a successful run emits the progress
currents 0, 0, 0 — the rules step and the audio phase both report
current 0, so the sequence is not strictly increasing. -/
theorem claim_C8_counterexample :
    isOkResult (startSession oneCaseSuccessInp []).2 = true ∧
    progressCurrents (startSession oneCaseSuccessInp []).1 = [0, 0, 0] ∧
    strictlyIncreasing
      (progressCurrents (startSession oneCaseSuccessInp []).1) = false := by
  decide

/-- Claim C8 (amended): every committed run's stream consists of progress
notifications followed by exactly one terminal ready event, with no event
after ready; the progress current values, however, are not strictly
increasing (the rules step and the audio-enrichment phase both restart at
current 0). -/
theorem claim_C8_amended (inp : StartInputs) (st : Store)
    (hrules : inp.rulesB ≠ .transportError)
    (hsave : inp.saveOk = true) :
    ∃ ps rules,
      (startSession inp st).1 =
        ps ++ [Event.ready inp.sessionID (pipelineGameDate inp) rules
          (pipelineTotal inp) 3] ∧
      ∀ e ∈ ps, e.isProgress = true := by
  obtain ⟨rules, hgen⟩ := generateRules_ok_of_ne inp.rulesB inp.rulesRand hrules
  have heq := startSession_ok inp st rules hgen hsave
  refine ⟨Event.progress 0 (pipelineTotal inp) "Generating daily rules..." ::
      (caseProgressEvents inp ++ audioProgressEvents inp), rules, ?_, ?_⟩
  · rw [heq]
    simp
  · intro e he
    simp only [List.mem_cons, List.mem_append] at he
    rcases he with rfl | he | he
    · rfl
    · simp only [caseProgressEvents] at he
      obtain ⟨i, -, rfl⟩ := List.mem_map.1 he
      rfl
    · simp only [audioProgressEvents] at he
      obtain ⟨i, -, rfl⟩ := List.mem_map.1 he
      rfl

/-- Witness for C8 (amended) at a concrete committed run. -/
theorem claim_C8_witness :
    oneCaseSuccessInp.rulesB ≠ .transportError ∧
    oneCaseSuccessInp.saveOk = true ∧
    (∃ ps rules,
      (startSession oneCaseSuccessInp []).1 =
        ps ++ [Event.ready oneCaseSuccessInp.sessionID
          (pipelineGameDate oneCaseSuccessInp) rules
          (pipelineTotal oneCaseSuccessInp) 3] ∧
      ∀ e ∈ ps, e.isProgress = true) :=
  ⟨by decide, by decide,
   claim_C8_amended oneCaseSuccessInp [] (by decide) (by decide)⟩

/-- Claim C10 (counterexample): with requested count 0 the default 15 is
substituted, yet a successfully parsed single-case generator response
leaves the committed session with 1 case, not 15. -/
theorem claim_C10_counterexample :
    sessionCaseCount (startSession defaultCountInp []).2 "s1" = some 1 ∧
    (1 : Nat) ≠ 15 := by
  decide

/-- Claim C10 (amended): a nonpositive requested count is defaulted to
15: the ready event reports totalCases = 15, and the committed session
starts with cursor 0, score 0, zeroed counters and quota and remaining
secondary checks both 3; its case list has length 15 for every
non-success generator behaviour, while a successfully parsed response
commits exactly the parsed cases, whose number need not be 15. -/
theorem claim_C10_amended (inp : StartInputs) (st : Store)
    (hreq : inp.numCasesReq ≤ 0)
    (hrules : inp.rulesB ≠ .transportError)
    (hsave : inp.saveOk = true) :
    ∃ st' s ps rules,
      (startSession inp st).2 = .ok st' ∧
      (startSession inp st).1 =
        ps ++ [Event.ready inp.sessionID (pipelineGameDate inp) rules 15 3] ∧
      findSession st' inp.sessionID = some s ∧
      s.currentCaseIndex = 0 ∧ s.score = 0 ∧
      s.correctDecisions = 0 ∧ s.incorrectDecisions = 0 ∧
      s.secondaryChecksQuota = 3 ∧ s.remainingSecondaryChecks = 3 ∧
      ((∀ drafts, inp.casesB ≠ .success drafts) → s.cases.length = 15) ∧
      (∀ drafts, inp.casesB = .success drafts → s.cases.length = drafts.length) := by
  obtain ⟨rules, hgen⟩ := generateRules_ok_of_ne inp.rulesB inp.rulesRand hrules
  have heq := startSession_ok inp st rules hgen hsave
  have htot : pipelineTotal inp = 15 := if_pos hreq
  refine ⟨saveSession st (pipelineSession inp rules), pipelineSession inp rules,
    Event.progress 0 (pipelineTotal inp) "Generating daily rules..." ::
      (caseProgressEvents inp ++ audioProgressEvents inp), rules,
    ?_, ?_, ?_, rfl, rfl, rfl, rfl, rfl, rfl, ?_, ?_⟩
  · rw [heq]
  · rw [heq, htot]
    simp
  · exact findSession_setSession_self st inp.sessionID _
  · intro hns
    show (pipelineSession inp rules).cases.length = 15
    simp only [pipelineSession, pipelineCases, length_applyAudio,
      length_generateCases]
    cases hb : inp.casesB with
    | success drafts => exact absurd hb (hns drafts)
    | unavailable =>
      show (pipelineTotal inp).toNat = 15
      rw [htot]
      rfl
    | transportError =>
      show (pipelineTotal inp).toNat = 15
      rw [htot]
      rfl
    | emptyText =>
      show (pipelineTotal inp).toNat = 15
      rw [htot]
      rfl
    | malformed =>
      show (pipelineTotal inp).toNat = 15
      rw [htot]
      rfl
  · intro drafts hb
    show (pipelineSession inp rules).cases.length = drafts.length
    simp only [pipelineSession, pipelineCases, length_applyAudio,
      length_generateCases, hb]

/-- Witness for C10 (amended): a negative requested count in mock mode. -/
theorem claim_C10_witness :
    defaultMockInp.numCasesReq ≤ 0 ∧
    defaultMockInp.rulesB ≠ .transportError ∧
    defaultMockInp.saveOk = true ∧
    (∃ st' s ps rules,
      (startSession defaultMockInp []).2 = .ok st' ∧
      (startSession defaultMockInp []).1 =
        ps ++ [Event.ready defaultMockInp.sessionID
          (pipelineGameDate defaultMockInp) rules 15 3] ∧
      findSession st' defaultMockInp.sessionID = some s ∧
      s.currentCaseIndex = 0 ∧ s.score = 0 ∧
      s.correctDecisions = 0 ∧ s.incorrectDecisions = 0 ∧
      s.secondaryChecksQuota = 3 ∧ s.remainingSecondaryChecks = 3 ∧
      ((∀ drafts, defaultMockInp.casesB ≠ .success drafts) →
        s.cases.length = 15) ∧
      (∀ drafts, defaultMockInp.casesB = .success drafts →
        s.cases.length = drafts.length)) :=
  ⟨by decide, by decide, by decide,
   claim_C10_amended defaultMockInp [] (by decide) (by decide) (by decide)⟩

end SendMeHome
